import Mathlib

/-!
Shallow embedding of the `easy-http-request` crate (magiclen/easy-http-request),
centred on `HttpRequest::send_request_inner` in `src/lib.rs` together with the
pure helpers `is_local_ipv4` and `is_local_ipv6`, the request/response data
model (`http_request_method.rs`, `http_request_body.rs`, `http_request_options.rs`,
`http_response.rs`, `http_request_error.rs`), and the wire-request building code
(headers, body encoding) inside `send_request_inner`.

External collaborators (the `hyper` transport, the `url` crate's absolute-URL
parser) are modelled as an explicit environment: the transport is an oracle
giving, for each attempt index, either a transport failure or a response
(status, raw headers, body byte chunks, observed elapsed times), and URL
parsing of redirect `Location` strings is a function `String → Option Url`.
The form-urlencoded serializer of the `url` crate is embedded concretely since
the body-encoding claims depend on its output.

The Rust recursion in `send_request_inner` is not structurally terminating
(the redirection counter is passed unchanged to the recursive calls), so the
embedding adds a `fuel` parameter that is *only* consumed at the recursion
sites; a `none` result means the Rust code would still be recursing after
`fuel` redirect hops.
-/

/-- `HttpRequestMethod` from `http_request_method.rs`. -/
inductive HttpRequestMethod where
  | GET
  | POST
  | PUT
  | DELETE
  | HEAD
deriving DecidableEq, Repr

/-- `HttpRequestMethod::get_str` from `http_request_method.rs`. -/
def HttpRequestMethod.get_str : HttpRequestMethod → String
  | .GET => "GET"
  | .POST => "POST"
  | .PUT => "PUT"
  | .DELETE => "DELETE"
  | .HEAD => "HEAD"

/-- `url::Host`: an IPv4 address (four octets), an IPv6 address (eight 16-bit
segments), or a domain name. -/
inductive Host where
  | Ipv4 (a b c d : Nat)
  | Ipv6 (s0 s1 s2 s3 s4 s5 s6 s7 : Nat)
  | Domain (name : String)
deriving DecidableEq, Repr

/-- The parts of `url::Url` that `send_request_inner` reads or writes:
scheme, username, host, port, path and the raw query string. -/
structure Url where
  scheme : String
  username : String
  host : Option Host
  port : Option Nat
  path : String
  query : Option String
deriving DecidableEq, Repr

/-- `is_local_ipv4` from `src/lib.rs` (lines 516-538).  The Rust `match` on the
four octets has mutually disjoint patterns that all return `true` and a default
arm returning `false`, so it is the disjunction of the pattern conditions,
listed here in source order. -/
def is_local_ipv4 (a b c d : Nat) : Bool :=
  (a == 10) ||
  (a == 172 && decide (16 ≤ b) && decide (b ≤ 31)) ||
  (a == 192 && b == 168) ||
  (a == 127) ||
  (a == 169 && b == 254) ||
  (a == 255 && b == 255 && c == 255 && d == 255) ||
  (a == 192 && b == 0 && c == 2) ||
  (a == 198 && b == 51 && c == 100) ||
  (a == 203 && b == 0 && c == 113) ||
  (a == 0 && b == 0 && c == 0 && d == 0)

/-- `is_local_ipv6` from `src/lib.rs` (lines 540-571), on the eight 16-bit
segments.  In the non-multicast branch the nested Rust `match`es have mutually
disjoint conditions that all return `true` (the innermost default arm returns
the documentation-prefix test), so that branch is the disjunction of the
conditions, listed in source order: loopback, unspecified, unicast-link-local
`fe80::/10`, unicast-site-local `fec0::/10`, unique-local `fc00::/7`, and the
documentation prefix `2001:db8::/32`. -/
def is_local_ipv6 (s0 s1 s2 s3 s4 s5 s6 s7 : Nat) : Bool :=
  if (s0 &&& 0xff00) == 0xff00 then
    (s0 &&& 0x000f) != 14
  else
    (s0 == 0 && s1 == 0 && s2 == 0 && s3 == 0 && s4 == 0 && s5 == 0 && s6 == 0 && s7 == 1) ||
    (s0 == 0 && s1 == 0 && s2 == 0 && s3 == 0 && s4 == 0 && s5 == 0 && s6 == 0 && s7 == 0) ||
    ((s0 &&& 0xffc0) == 0xfe80) ||
    ((s0 &&& 0xffc0) == 0xfec0) ||
    ((s0 &&& 0xfe00) == 0xfc00) ||
    (s0 == 0x2001 && s1 == 0xdb8)

/-- Claim C6: `is_local_ipv4` returns true exactly on the private ranges
(10.0.0.0/8, 172.16.0.0/12, 192.168.0.0/16), loopback 127.0.0.0/8, link-local
169.254.0.0/16, broadcast 255.255.255.255, the documentation ranges
(192.0.2.0/24, 198.51.100.0/24, 203.0.113.0/24) and unspecified 0.0.0.0; in
particular it is false on 8.8.8.8. -/
theorem is_local_ipv4_characterization :
    (∀ a b c d : Nat,
      is_local_ipv4 a b c d = true ↔
        (a = 10 ∨
         (a = 172 ∧ 16 ≤ b ∧ b ≤ 31) ∨
         (a = 192 ∧ b = 168) ∨
         a = 127 ∨
         (a = 169 ∧ b = 254) ∨
         (a = 255 ∧ b = 255 ∧ c = 255 ∧ d = 255) ∨
         (a = 192 ∧ b = 0 ∧ c = 2) ∨
         (a = 198 ∧ b = 51 ∧ c = 100) ∨
         (a = 203 ∧ b = 0 ∧ c = 113) ∨
         (a = 0 ∧ b = 0 ∧ c = 0 ∧ d = 0))) ∧
    is_local_ipv4 8 8 8 8 = false := by
  constructor
  · intro a b c d
    simp only [is_local_ipv4, Bool.or_eq_true, Bool.and_eq_true, beq_iff_eq,
      decide_eq_true_eq, and_assoc, or_assoc]
  · decide

/-- The IPv6 classification exactly as claim C7 (following the spec's words)
states it: a multicast address is local unless its scope field is 14; a
non-multicast address is local exactly when it is loopback `::1`, unspecified
`::`, unicast-link-local `fe80::/10`, unique-local `fc00::/7`, or in the
documentation prefix `2001:db8::/32`.  Note this list has no case for
unicast-site-local `fec0::/10`. -/
def claimed_is_local_ipv6 (s0 s1 s2 s3 s4 s5 s6 s7 : Nat) : Prop :=
  if s0 &&& 0xff00 = 0xff00 then
    s0 &&& 0x000f ≠ 14
  else
    (s0 = 0 ∧ s1 = 0 ∧ s2 = 0 ∧ s3 = 0 ∧ s4 = 0 ∧ s5 = 0 ∧ s6 = 0 ∧ s7 = 1) ∨
    (s0 = 0 ∧ s1 = 0 ∧ s2 = 0 ∧ s3 = 0 ∧ s4 = 0 ∧ s5 = 0 ∧ s6 = 0 ∧ s7 = 0) ∨
    s0 &&& 0xffc0 = 0xfe80 ∨
    s0 &&& 0xfe00 = 0xfc00 ∨
    (s0 = 0x2001 ∧ s1 = 0xdb8)

/-- Claim C7 as stated is false: the unicast-site-local address `fec0::1` is
classified as local by the code's `is_local_ipv6`, but it is not multicast and
falls in none of the categories the claim lists. -/
theorem is_local_ipv6_site_local_counterexample :
    is_local_ipv6 0xfec0 0 0 0 0 0 0 1 = true ∧
    ¬ claimed_is_local_ipv6 0xfec0 0 0 0 0 0 0 1 := by
  constructor
  · decide
  · simp only [claimed_is_local_ipv6]
    decide

/-- Claim C7 amended: `is_local_ipv6` classifies a multicast address as local
exactly when its scope field differs from 14, and a non-multicast address as
local exactly when it is loopback `::1`, unspecified `::`, unicast-link-local
`fe80::/10`, unicast-site-local `fec0::/10`, unique-local `fc00::/7`, or in
the documentation prefix `2001:db8::/32`. -/
theorem is_local_ipv6_characterization (s0 s1 s2 s3 s4 s5 s6 s7 : Nat) :
    (s0 &&& 0xff00 = 0xff00 →
      (is_local_ipv6 s0 s1 s2 s3 s4 s5 s6 s7 = true ↔ s0 &&& 0x000f ≠ 14)) ∧
    (s0 &&& 0xff00 ≠ 0xff00 →
      (is_local_ipv6 s0 s1 s2 s3 s4 s5 s6 s7 = true ↔
        ((s0 = 0 ∧ s1 = 0 ∧ s2 = 0 ∧ s3 = 0 ∧ s4 = 0 ∧ s5 = 0 ∧ s6 = 0 ∧ s7 = 1) ∨
         (s0 = 0 ∧ s1 = 0 ∧ s2 = 0 ∧ s3 = 0 ∧ s4 = 0 ∧ s5 = 0 ∧ s6 = 0 ∧ s7 = 0) ∨
         s0 &&& 0xffc0 = 0xfe80 ∨
         s0 &&& 0xffc0 = 0xfec0 ∨
         s0 &&& 0xfe00 = 0xfc00 ∨
         (s0 = 0x2001 ∧ s1 = 0xdb8)))) := by
  constructor
  · intro h
    have hb : (s0 &&& 0xff00 == 0xff00) = true := by simpa using h
    simp only [is_local_ipv6, hb, if_true, bne_iff_ne, ne_eq]
  · intro h
    have hb : (s0 &&& 0xff00 == 0xff00) = false := by simpa using h
    simp only [is_local_ipv6, hb, Bool.false_eq_true, if_false, Bool.or_eq_true,
      Bool.and_eq_true, beq_iff_eq, and_assoc, or_assoc]

/-- Witness for the amended C7 characterization: the multicast address
`ff05::1` (scope 5) is local, and the global-scope multicast `ff0e::1` is not;
both read off the first conjunct at concrete segments. -/
theorem is_local_ipv6_characterization_witness :
    is_local_ipv6 0xff05 0 0 0 0 0 0 1 = true ∧
    ¬ is_local_ipv6 0xff0e 0 0 0 0 0 0 1 = true := by
  constructor
  · exact ((is_local_ipv6_characterization 0xff05 0 0 0 0 0 0 1).1 (by decide)).2
      (by decide)
  · intro hcontra
    exact absurd
      (((is_local_ipv6_characterization 0xff0e 0 0 0 0 0 0 1).1 (by decide)).1 hcontra)
      (by decide)

/-- `HttpRequestOptions` from `http_request_options.rs`. -/
structure HttpRequestOptions where
  max_response_body_size : Nat
  max_redirect_count : Nat
  max_connection_time : Nat
  allow_local : Bool
deriving DecidableEq, Repr

/-- `HttpRequestOptions::default` from `http_request_options.rs`. -/
def HttpRequestOptions.default : HttpRequestOptions :=
  { max_response_body_size := 1 * 1024 * 1024
    max_redirect_count := 5
    max_connection_time := 60000
    allow_local := true }

/-- `HttpRequestBody` from `http_request_body.rs`.  A `Binary` body carries its
raw bytes, a `Text` body a string (sent as its UTF-8 bytes), and a
`FormURLEncoded` body a key-value mapping; the Rust maps are modelled as
association lists in iteration order, and the `mime::Mime` content types as the
strings they display as. -/
inductive HttpRequestBody where
  | Binary (content_type : String) (body : List Nat)
  | Text (content_type : String) (body : String)
  | FormURLEncoded (map : List (String × String))
deriving DecidableEq, Repr

/-- `HttpRequestError` from `http_request_error.rs`.  The payloads of the
wrapped external errors (`url::ParseError`, `hyper::Error`, `std::io::Error`)
are irrelevant to the claims and elided. -/
inductive HttpRequestError where
  | UrlParseError
  | HyperError
  | IOError
  | RedirectError (msg : String)
  | TooLarge
  | TimeOut
  | LocalNotAllow
  | Other (msg : String)
deriving DecidableEq, Repr

/-- `HttpResponse` from `http_response.rs`; the `HashMap<String, String>` of
lower-cased header names is modelled as an association list with unique keys. -/
structure HttpResponse where
  status_code : Nat
  headers : List (String × String)
  body : List Nat
deriving DecidableEq, Repr

/-- UTF-8 encoding of one character, as the bytes of a Rust `String`/`str`. -/
def charUtf8Bytes (c : Char) : List Nat :=
  let n := c.toNat
  if n < 0x80 then [n]
  else if n < 0x800 then
    [0xC0 ||| (n >>> 6), 0x80 ||| (n &&& 0x3F)]
  else if n < 0x10000 then
    [0xE0 ||| (n >>> 12), 0x80 ||| ((n >>> 6) &&& 0x3F), 0x80 ||| (n &&& 0x3F)]
  else
    [0xF0 ||| (n >>> 18), 0x80 ||| ((n >>> 12) &&& 0x3F),
     0x80 ||| ((n >>> 6) &&& 0x3F), 0x80 ||| (n &&& 0x3F)]

/-- The UTF-8 bytes of a string, i.e. what `str::as_bytes`/`String::len` see. -/
def strBytes (s : String) : List Nat :=
  (s.data.map charUtf8Bytes).flatten

/-- Upper-case hexadecimal digit, used by percent-encoding. -/
def toHexDigit (n : Nat) : Char :=
  if n < 10 then Char.ofNat (48 + n) else Char.ofNat (55 + n)

/-- `%XX` percent-escape of one byte (upper-case hex), as emitted by the `url`
crate's form-urlencoded serializer. -/
def percentEncodeByte (b : Nat) : String :=
  String.mk ['%', toHexDigit (b / 16), toHexDigit (b % 16)]

/-- One byte of `application/x-www-form-urlencoded` serialization as performed
by the `url` crate's `form_urlencoded` serializer (used by
`Url::query_pairs_mut().append_pair`): space becomes `+`; ASCII alphanumerics
and `*`, `-`, `.`, `_` pass through; every other byte is percent-escaped. -/
def formEncodeByte (b : Nat) : String :=
  if b = 0x20 then "+"
  else if (0x30 ≤ b ∧ b ≤ 0x39) ∨ (0x41 ≤ b ∧ b ≤ 0x5A) ∨ (0x61 ≤ b ∧ b ≤ 0x7A) ∨
          b = 0x2A ∨ b = 0x2D ∨ b = 0x2E ∨ b = 0x5F then
    String.mk [Char.ofNat b]
  else percentEncodeByte b

/-- Form-urlencoded serialization of a whole string (over its UTF-8 bytes). -/
def formEncodeStr (s : String) : String :=
  String.join ((strBytes s).map formEncodeByte)

/-- One encoded `key=value` pair. -/
def formEncodePair (k v : String) : String :=
  formEncodeStr k ++ "=" ++ formEncodeStr v

/-- Embeds lines 319-331 of `src/lib.rs`: the `FormURLEncoded` body is
serialized by parsing the dummy URL `q:`, appending every pair with
`query_pairs_mut().append_pair`, and reading back the resulting query string.
For an initially query-less URL the `url` crate's serializer produces exactly
the encoded `key=value` pairs joined with `&`. -/
def formUrlEncodedSerialize (map : List (String × String)) : String :=
  String.intercalate "&" (map.map fun kv => formEncodePair kv.1 kv.2)

/-- Lower-case one ASCII character. -/
def asciiLowerChar (c : Char) : Char :=
  if 65 ≤ c.toNat ∧ c.toNat ≤ 90 then Char.ofNat (c.toNat + 32) else c

/-- ASCII lower-casing of a string (character by character); every header name
this code lower-cases (`to_lowercase` on response header names, the
`User-Agent` comparison) is ASCII, where Rust's Unicode lower-casing and the
ASCII one coincide. -/
def strToLower (s : String) : String :=
  String.mk (s.data.map asciiLowerChar)

/-- `eq_ignore_ascii_case` on header names (all names involved are ASCII). -/
def eqIgnoreAsciiCase (a b : String) : Bool :=
  strToLower a == strToLower b

/-- `DEFAULT_USER_AGENT` from `src/lib.rs` (line 62).  The trailing crate
version comes from the build environment (`CARGO_PKG_VERSION`) and is not part
of the sources; no claim depends on its exact value. -/
def DEFAULT_USER_AGENT : String :=
  "Mozilla/5.0 (Rust; magiclen.org) EasyHyperRequest/"

/-- Lines 258-284 of `src/lib.rs`: the user's headers are appended in
iteration order (`append_raw`), and a default `User-Agent` is appended only
when no user header name matches `User-Agent` case-insensitively. -/
def buildRequestHeaders (headers : Option (List (String × String))) : List (String × String) :=
  match headers with
  | some m =>
    if m.any (fun kv => eqIgnoreAsciiCase kv.1 "User-Agent") then m
    else m ++ [("User-Agent", DEFAULT_USER_AGENT)]
  | none => [("User-Agent", DEFAULT_USER_AGENT)]

/-- `Headers::set_raw` of the `hyper` crate: replace any header with the same
(case-insensitive) name by the new value. -/
def setRaw (hs : List (String × String)) (k v : String) : List (String × String) :=
  hs.filter (fun p => !(eqIgnoreAsciiCase p.1 k)) ++ [(k, v)]

/-- Lines 286-348 of `src/lib.rs`: attach the request body.  Returns the
updated request headers and the body bytes handed to `Body::BufBody`.
For `Binary`/`Text` bodies the content type is the body's own and the length
is the byte length; for `FormURLEncoded` the serialized query is the body, the
content type is set to the literal `"x-www-form-urlencoded"` (line 334) and
the length is the encoded byte length. -/
def applyBody (body : Option HttpRequestBody) (requestHeaders : List (String × String)) :
    List (String × String) × Option (List Nat) :=
  match body with
  | none => (requestHeaders, none)
  | some (.Binary content_type b) =>
    (setRaw (setRaw requestHeaders "Content-Type" content_type)
      "Content-Length" (toString b.length), some b)
  | some (.Text content_type b) =>
    (setRaw (setRaw requestHeaders "Content-Type" content_type)
      "Content-Length" (toString (strBytes b).length), some (strBytes b))
  | some (.FormURLEncoded m) =>
    let query := strBytes (formUrlEncodedSerialize m)
    (setRaw (setRaw requestHeaders "Content-Type" "x-www-form-urlencoded")
      "Content-Length" (toString query.length), some query)

/-- What the transport (`hyper` client) hands back for one attempt: the status
code, the raw response headers, the successive non-empty reads of the response
body (a `read` returning 0 ends the stream, modelled by the end of the list),
and the elapsed wall-clock milliseconds observed right after the response
arrives and after each body chunk. -/
structure TransportResponse where
  status : Nat
  headers : List (String × String)
  bodyChunks : List (List Nat)
  headerElapsed : Nat
  chunkElapsed : Nat → Nat

/-- The wire request one attempt hands to the transport: method, final URL
(query merged), built header set, and encoded body bytes. -/
structure WireRequest where
  method : HttpRequestMethod
  url : Url
  headers : List (String × String)
  body : Option (List Nat)
deriving DecidableEq, Repr

/-- The external collaborators of `send_request_inner`: the `url` crate's
absolute-URL parser (used on redirect `Location` strings) and the transport,
an oracle giving for each attempt index either `none` (a `hyper` send error)
or the response. -/
structure Env where
  parseUrl : String → Option Url
  transport : Nat → Option TransportResponse

/-- The host `match` inside the local-address check of `send_request_inner`
(lines 211-227). -/
def hostIsLocal : Host → Bool
  | .Ipv4 a b c d => is_local_ipv4 a b c d
  | .Ipv6 s0 s1 s2 s3 s4 s5 s6 s7 => is_local_ipv6 s0 s1 s2 s3 s4 s5 s6 s7
  | .Domain name => name == "localhost"

/-- Lines 208-231 of `src/lib.rs`: a URL without a host fails with `Other`,
and when `allow_local` is false a local host fails with `LocalNotAllow`.
Returns the error, if any, produced before anything else runs. -/
def checkHost (url : Url) (options : HttpRequestOptions) : Option HttpRequestError :=
  match url.host with
  | some host =>
    if !options.allow_local && hostIsLocal host then some .LocalNotAllow else none
  | none => some (.Other "A valid HTTP URL needs contains a host.")

/-- `Url::query_pairs_mut().append_pair`: append one form-urlencoded pair to
the URL's existing query string (separated by `&` when one is present). -/
def appendQueryPair (u : Url) (k v : String) : Url :=
  let pair := formEncodePair k v
  { u with
    query := some (match u.query with
      | some q => if q = "" then pair else q ++ "&" ++ pair
      | none => pair) }

/-- Lines 233-239 of `src/lib.rs`: merge the optional query mapping into the
URL, pair by pair in iteration order. -/
def mergeQuery (url : Url) (query : Option (List (String × String))) : Url :=
  match query with
  | some m => m.foldl (fun u kv => appendQueryPair u kv.1 kv.2) url
  | none => url

/-- `url::Host` displayed as text (`host.to_string()`).  IPv6 hosts are
bracketed; their textual form (used only on the unexercised fallback path of
redirect-location resolution) is the uncompressed lower-case hex form. -/
def hostToString : Host → String
  | .Domain name => name
  | .Ipv4 a b c d =>
    toString a ++ "." ++ toString b ++ "." ++ toString c ++ "." ++ toString d
  | .Ipv6 s0 s1 s2 s3 s4 s5 s6 s7 =>
    "[" ++ String.intercalate ":"
      ([s0, s1, s2, s3, s4, s5, s6, s7].map (Nat.toDigits 16 · |> String.mk)) ++ "]"

/-- `slash_formatter::concat_with_slash_in_place`: concatenate two path pieces
with exactly one slash at the joint. -/
def concatWithSlash (a b : String) : String :=
  let a := if a.endsWith "/" then a.dropRight 1 else a
  let b := if b.startsWith "/" then b.drop 1 else b
  a ++ "/" ++ b

/-- `HashMap::insert` on the lower-cased response-header map: replace any
existing entry for the key. -/
def mapInsert (m : List (String × String)) (k v : String) : List (String × String) :=
  m.filter (fun p => p.1 ≠ k) ++ [(k, v)]

/-- Lines 369-373 of `src/lib.rs`: collect the response headers into a map
keyed by the lower-cased header name (later occurrences win). -/
def buildHeaderMap (hs : List (String × String)) : List (String × String) :=
  hs.foldl (fun m kv => mapInsert m (strToLower kv.1) kv.2) []

/-- Lines 376-438 of `src/lib.rs`: resolve the `Location` header of a 3xx
response against the current URL.  A missing `Location` and a `Location` that
cannot be turned into a URL are `RedirectError`s; a relative `Location` (one
the URL parser rejects) is joined to the current URL's scheme, userinfo, host
and port with slash-aware concatenation; an absolute `Location` without a host
inherits the current URL's userinfo, host and port (the Rust code sets the
host via `set_host(host.to_string())`, which restores the same host value). -/
def resolveLocation (parseUrlF : String → Option Url) (url : Url)
    (headersRawMap : List (String × String)) : Except HttpRequestError Url :=
  match headersRawMap.lookup "location" with
  | some location =>
    match parseUrlF location with
    | some locationUrl =>
      match url.host with
      | some host =>
        if locationUrl.host.isNone then
          let locationUrl :=
            if url.username ≠ "" then { locationUrl with username := url.username }
            else locationUrl
          let locationUrl := { locationUrl with host := some host }
          let locationUrl :=
            match url.port with
            | some p => { locationUrl with port := some p }
            | none => locationUrl
          .ok locationUrl
        else .ok locationUrl
      | none => .ok locationUrl
    | none =>
      let base := url.scheme ++ "://" ++
        (match url.host with
         | some host =>
           (if url.username ≠ "" then url.username ++ "@" else "") ++
           hostToString host ++
           (match url.port with
            | some p => ":" ++ toString p
            | none => "")
         | none => "")
      match parseUrlF (concatWithSlash base location) with
      | some locationUrl => .ok locationUrl
      | none => .error (.RedirectError "Cannot parse the `location` field in headers.")
  | none => .error (.RedirectError "Cannot get the `location` field in headers.")

/-- `u64::max_value()` as used in the elapsed-time guard. -/
def u64Max : Nat := 2 ^ 64 - 1

/-- Lines 356-365 (and 498-505) of `src/lib.rs`: the elapsed-time check.  The
`u128` millisecond count times out when the limit is enabled and the count
either exceeds `u64::MAX` or, truncated to `u64`, exceeds the limit. -/
def timedOut (max_connection_time : Nat) (elapsed : Nat) : Bool :=
  decide (0 < max_connection_time) &&
    (decide (u64Max < elapsed) || decide (max_connection_time < elapsed % 2 ^ 64))

/-- Lines 479-506 of `src/lib.rs`: the bounded body-reading loop.  `chunks`
are the successive non-empty reads, `idx` counts iterations (for the elapsed
oracle), `sum_size` the accumulated byte count and `bodyAcc` the accumulated
bytes.  Each chunk first bumps `sum_size` and fails with `TooLarge` when the
limit is strictly exceeded (discarding everything), then is appended, then the
elapsed time is checked.  A clean end of stream returns the accumulated
bytes. -/
def readBodyLoop (options : HttpRequestOptions) (elapsed : Nat → Nat) :
    List (List Nat) → Nat → Nat → List Nat → Except HttpRequestError (List Nat)
  | [], _, _, bodyAcc => .ok bodyAcc
  | c :: cs, idx, sum_size, bodyAcc =>
    let sum_size := sum_size + c.length
    if options.max_response_body_size < sum_size then .error .TooLarge
    else
      let bodyAcc := bodyAcc ++ c
      if timedOut options.max_connection_time (elapsed idx) then .error .TimeOut
      else readBodyLoop options elapsed cs (idx + 1) sum_size bodyAcc

/-- The outcome of one attempt of `send_request_inner` before the recursion:
either a final result, or a tail-recursive redirect hop carrying the next
method, URL and body (the query, headers, options and — unchanged in the
source — the redirection counter are passed through verbatim). -/
inductive StepOutcome where
  | final (result : Except HttpRequestError HttpResponse)
  | redirect (method : HttpRequestMethod) (url : Url) (body : Option HttpRequestBody)

/-- One attempt of `send_request_inner` (lines 199-512 of `src/lib.rs`) up to
but excluding the recursive calls, in source order: host validation, query
merge, wire-request building, transport send, post-response elapsed check,
redirect evaluation (only when the counter is positive and the status is 3xx),
and otherwise the bounded body read.  Returns the wire request actually handed
to the transport (`none` when validation failed before any network I/O) and
the step outcome.  The two recursive calls of the source (status 303: method
`GET`, no body; status 301/302/307/308: original method and body) become
`StepOutcome.redirect`. -/
def sendStep (env : Env) (attempt : Nat) (method : HttpRequestMethod) (url : Url)
    (query : Option (List (String × String))) (body : Option HttpRequestBody)
    (headers : Option (List (String × String))) (options : HttpRequestOptions)
    (redirection_counter : Nat) : Option WireRequest × StepOutcome :=
  match checkHost url options with
  | some e => (none, .final (.error e))
  | none =>
    let url := mergeQuery url query
    let built := applyBody body (buildRequestHeaders headers)
    let wire : WireRequest := ⟨method, url, built.1, built.2⟩
    match env.transport attempt with
    | none => (some wire, .final (.error .HyperError))
    | some response =>
      if timedOut options.max_connection_time response.headerElapsed then
        (some wire, .final (.error .TimeOut))
      else
        let status_code := response.status
        let headersRawMap := buildHeaderMap response.headers
        if decide (0 < redirection_counter) && (status_code / 100 == 3) then
          match resolveLocation env.parseUrl url headersRawMap with
          | .error e => (some wire, .final (.error e))
          | .ok locationUrl =>
            if status_code == 303 then
              (some wire, .redirect .GET locationUrl none)
            else if status_code == 301 || status_code == 302 ||
                status_code == 307 || status_code == 308 then
              (some wire, .redirect method locationUrl body)
            else
              (some wire, .final (.error (.RedirectError "Unsupported redirection status.")))
        else
          match readBodyLoop options response.chunkElapsed response.bodyChunks 0 0 [] with
          | .error e => (some wire, .final (.error e))
          | .ok bodyBytes =>
            (some wire, .final (.ok ⟨status_code, headersRawMap, bodyBytes⟩))

/-- `send_request_inner` from `src/lib.rs`: one attempt (`sendStep`) followed,
on a redirect outcome, by the recursive call with the next method, URL and
body and the *unchanged* `redirection_counter` — exactly as in the source,
where both recursive calls (lines 447-455 and 463-471) pass
`redirection_counter` verbatim.  The `fuel` argument is an artifact of the
embedding consumed only at the recursion sites: a `none` result means the Rust
function is still recursing after `fuel` redirect hops.  The returned list
collects the wire requests handed to the transport, in order. -/
def sendRequestInner (env : Env) (fuel : Nat) (attempt : Nat)
    (method : HttpRequestMethod) (url : Url)
    (query : Option (List (String × String))) (body : Option HttpRequestBody)
    (headers : Option (List (String × String))) (options : HttpRequestOptions)
    (redirection_counter : Nat) :
    List WireRequest × Option (Except HttpRequestError HttpResponse) :=
  match sendStep env attempt method url query body headers options redirection_counter with
  | (w, .final r) => (w.toList, some r)
  | (w, .redirect m u b) =>
    match fuel with
    | 0 => (w.toList, none)
    | fuel + 1 =>
      let rest := sendRequestInner env fuel (attempt + 1) m u query b headers options
        redirection_counter
      (w.toList ++ rest.1, rest.2)

/-- The `HttpRequest` sender structure from `src/lib.rs` (lines 75-89); the
generic map parameters are instantiated with association lists of strings. -/
structure HttpRequest where
  method : HttpRequestMethod
  url : Url
  query : Option (List (String × String))
  body : Option HttpRequestBody
  headers : Option (List (String × String))
  options : HttpRequestOptions

/-- `HttpRequest::send` (lines 172-182): consume the sender and run
`send_request_inner` on its fields with `options.max_redirect_count` as the
initial redirection counter. -/
def HttpRequest.send (env : Env) (fuel : Nat) (r : HttpRequest) :
    List WireRequest × Option (Except HttpRequestError HttpResponse) :=
  sendRequestInner env fuel 0 r.method r.url r.query r.body r.headers r.options
    r.options.max_redirect_count

/-- `HttpRequest::send_preserved` (lines 184-196): borrow the sender (cloning
the URL) and run `send_request_inner` on the same fields with
`options.max_redirect_count` as the initial redirection counter. -/
def HttpRequest.send_preserved (env : Env) (fuel : Nat) (r : HttpRequest) :
    List WireRequest × Option (Except HttpRequestError HttpResponse) :=
  sendRequestInner env fuel 0 r.method r.url r.query r.body r.headers r.options
    r.options.max_redirect_count

theorem readBodyLoop_ok_flatten (options : HttpRequestOptions) (elapsed : Nat → Nat) :
    ∀ (chunks : List (List Nat)) (idx sum_size : Nat) (bodyAcc b : List Nat),
      readBodyLoop options elapsed chunks idx sum_size bodyAcc = .ok b →
      b = bodyAcc ++ chunks.flatten := by
  intro chunks
  induction chunks with
  | nil =>
    intro idx s acc b h
    simp only [readBodyLoop, Except.ok.injEq] at h
    simp [h]
  | cons c cs ih =>
    intro idx s acc b h
    simp only [readBodyLoop] at h
    split at h
    · exact absurd h (by simp)
    · split at h
      · exact absurd h (by simp)
      · have := ih (idx + 1) (s + c.length) (acc ++ c) b h
        simpa [List.append_assoc] using this

theorem readBodyLoop_ok_bound (options : HttpRequestOptions) (elapsed : Nat → Nat) :
    ∀ (chunks : List (List Nat)) (idx sum_size : Nat) (bodyAcc b : List Nat),
      readBodyLoop options elapsed chunks idx sum_size bodyAcc = .ok b →
      chunks = [] ∨
        sum_size + chunks.flatten.length ≤ options.max_response_body_size := by
  intro chunks
  induction chunks with
  | nil => intro idx s acc b _; exact Or.inl rfl
  | cons c cs ih =>
    intro idx s acc b h
    simp only [readBodyLoop] at h
    split at h
    · exact absurd h (by simp)
    · rename_i hsize
      split at h
      · exact absurd h (by simp)
      · right
        rcases ih (idx + 1) (s + c.length) (acc ++ c) b h with hnil | hle
        · subst hnil
          simp only [List.flatten_cons, List.flatten_nil, List.append_nil,
            List.length_append] at hsize ⊢
          omega
        · simp only [List.flatten_cons, List.length_append] at hle ⊢
          omega

theorem readBodyLoop_fits (options : HttpRequestOptions) (elapsed : Nat → Nat)
    (htime : options.max_connection_time = 0) :
    ∀ (chunks : List (List Nat)) (idx sum_size : Nat) (bodyAcc : List Nat),
      sum_size + chunks.flatten.length ≤ options.max_response_body_size →
      readBodyLoop options elapsed chunks idx sum_size bodyAcc =
        .ok (bodyAcc ++ chunks.flatten) := by
  intro chunks
  induction chunks with
  | nil => intro idx s acc _; simp [readBodyLoop]
  | cons c cs ih =>
    intro idx s acc hle
    simp only [List.flatten_cons, List.length_append] at hle
    simp only [readBodyLoop]
    rw [if_neg (by omega)]
    rw [if_neg (by simp [timedOut, htime])]
    rw [ih (idx + 1) (s + c.length) (acc ++ c) (by omega)]
    simp [List.append_assoc]

theorem readBodyLoop_exceed (options : HttpRequestOptions) (elapsed : Nat → Nat)
    (htime : options.max_connection_time = 0) :
    ∀ (chunks : List (List Nat)) (idx sum_size : Nat) (bodyAcc : List Nat),
      sum_size ≤ options.max_response_body_size →
      options.max_response_body_size < sum_size + chunks.flatten.length →
      readBodyLoop options elapsed chunks idx sum_size bodyAcc = .error .TooLarge := by
  intro chunks
  induction chunks with
  | nil =>
    intro idx s acc hle hgt
    simp only [List.flatten_nil, List.length_nil, Nat.add_zero] at hgt
    omega
  | cons c cs ih =>
    intro idx s acc hle hgt
    simp only [List.flatten_cons, List.length_append] at hgt
    simp only [readBodyLoop]
    by_cases hbig : options.max_response_body_size < s + c.length
    · rw [if_pos hbig]
    · rw [if_neg hbig]
      rw [if_neg (by simp [timedOut, htime])]
      exact ih (idx + 1) (s + c.length) (acc ++ c) (by omega) (by omega)

theorem readBodyLoop_tooLarge_exceeds (options : HttpRequestOptions) (elapsed : Nat → Nat) :
    ∀ (chunks : List (List Nat)) (idx sum_size : Nat) (bodyAcc : List Nat),
      readBodyLoop options elapsed chunks idx sum_size bodyAcc = .error .TooLarge →
      options.max_response_body_size < sum_size + chunks.flatten.length := by
  intro chunks
  induction chunks with
  | nil => intro idx s acc h; exact absurd h (by simp [readBodyLoop])
  | cons c cs ih =>
    intro idx s acc h
    simp only [readBodyLoop] at h
    split at h
    · rename_i hbig
      simp only [List.flatten_cons, List.length_append]
      omega
    · split at h
      · exact absurd h (by simp)
      · have := ih (idx + 1) (s + c.length) (acc ++ c) h
        simp only [List.flatten_cons, List.length_append]
        omega

/-- Claim C5: whenever the accumulated body length strictly exceeds
`max_response_body_size` the body-reading loop fails with `TooLarge` (the
error carries no bytes, so no partial body reaches the caller); every
successful read returns a body of length at most `max_response_body_size`;
and a clean end of stream returns exactly the accumulated bytes. -/
theorem body_reader_size_bound (options : HttpRequestOptions) (elapsed : Nat → Nat)
    (chunks : List (List Nat)) :
    (∀ b, readBodyLoop options elapsed chunks 0 0 [] = .ok b →
      b = chunks.flatten ∧ b.length ≤ options.max_response_body_size) ∧
    (options.max_connection_time = 0 →
      options.max_response_body_size < chunks.flatten.length →
      readBodyLoop options elapsed chunks 0 0 [] = .error .TooLarge) := by
  constructor
  · intro b h
    have hflat := readBodyLoop_ok_flatten options elapsed chunks 0 0 [] b h
    simp only [List.nil_append] at hflat
    refine ⟨hflat, ?_⟩
    rcases readBodyLoop_ok_bound options elapsed chunks 0 0 [] b h with hnil | hle
    · subst hnil; simp [hflat]
    · subst hflat; omega
  · intro htime hgt
    exact readBodyLoop_exceed options elapsed htime chunks 0 0 [] (Nat.zero_le _)
      (by omega)

/-- Witness for C5 at concrete streams: `[[1,2],[3]]` under limit 3 succeeds
with all bytes, and `[[1,2,3,4]]` under limit 3 fails with `TooLarge`. -/
theorem body_reader_size_bound_witness :
    (([1, 2, 3] : List Nat) = ([[1, 2], [3]] : List (List Nat)).flatten ∧
      ([1, 2, 3] : List Nat).length ≤ 3) ∧
    readBodyLoop ⟨3, 0, 0, true⟩ (fun _ => 0) [[1, 2, 3, 4]] 0 0 [] = .error .TooLarge := by
  constructor
  · exact (body_reader_size_bound ⟨3, 0, 0, true⟩ (fun _ => 0) [[1, 2], [3]]).1
      [1, 2, 3] rfl
  · exact (body_reader_size_bound ⟨3, 0, 0, true⟩ (fun _ => 0) [[1, 2, 3, 4]]).2
      rfl (by decide)

/-- Claim C10: the size comparison is strict — a stream totalling exactly
`max_response_body_size` bytes is read back in full with no `TooLarge`, and
`TooLarge` arises only when the accumulated count strictly exceeds the
limit. -/
theorem body_reader_strict_boundary (options : HttpRequestOptions) (elapsed : Nat → Nat)
    (chunks : List (List Nat)) :
    (options.max_connection_time = 0 →
      chunks.flatten.length = options.max_response_body_size →
      readBodyLoop options elapsed chunks 0 0 [] = .ok chunks.flatten) ∧
    (readBodyLoop options elapsed chunks 0 0 [] = .error .TooLarge →
      options.max_response_body_size < chunks.flatten.length) := by
  constructor
  · intro htime heq
    have := readBodyLoop_fits options elapsed htime chunks 0 0 [] (by omega)
    simpa using this
  · intro h
    have := readBodyLoop_tooLarge_exceeds options elapsed chunks 0 0 [] h
    omega

/-- Witness for C10: a stream of exactly 3 bytes under limit 3 succeeds, and
a `TooLarge` failure at limit 3 certifies more than 3 bytes. -/
theorem body_reader_strict_boundary_witness :
    readBodyLoop ⟨3, 5, 0, true⟩ (fun _ => 0) [[9, 9], [7]] 0 0 [] =
      .ok ([[9, 9], [7]] : List (List Nat)).flatten ∧
    (3 : Nat) < ([[1, 2, 3, 4]] : List (List Nat)).flatten.length := by
  constructor
  · exact (body_reader_strict_boundary ⟨3, 5, 0, true⟩ (fun _ => 0) [[9, 9], [7]]).1
      rfl rfl
  · exact (body_reader_strict_boundary ⟨3, 5, 0, true⟩ (fun _ => 0) [[1, 2, 3, 4]]).2
      rfl

theorem sendRequestInner_final (env : Env) (fuel attempt : Nat)
    (method : HttpRequestMethod) (url : Url)
    (query : Option (List (String × String))) (body : Option HttpRequestBody)
    (headers : Option (List (String × String))) (options : HttpRequestOptions)
    (redirection_counter : Nat) (w : Option WireRequest)
    (r : Except HttpRequestError HttpResponse)
    (hstep : sendStep env attempt method url query body headers options
      redirection_counter = (w, .final r)) :
    sendRequestInner env fuel attempt method url query body headers options
      redirection_counter = (w.toList, some r) := by
  rw [sendRequestInner, hstep]

theorem sendRequestInner_redirect (env : Env) (fuel attempt : Nat)
    (method : HttpRequestMethod) (url : Url)
    (query : Option (List (String × String))) (body : Option HttpRequestBody)
    (headers : Option (List (String × String))) (options : HttpRequestOptions)
    (redirection_counter : Nat) (w : Option WireRequest)
    (m : HttpRequestMethod) (u : Url) (b : Option HttpRequestBody)
    (hstep : sendStep env attempt method url query body headers options
      redirection_counter = (w, .redirect m u b)) :
    sendRequestInner env (fuel + 1) attempt method url query body headers options
      redirection_counter =
      (w.toList ++ (sendRequestInner env fuel (attempt + 1) m u query b headers options
        redirection_counter).1,
       (sendRequestInner env fuel (attempt + 1) m u query b headers options
        redirection_counter).2) := by
  rw [sendRequestInner, hstep]

theorem sendRequestInner_redirect_zero (env : Env) (attempt : Nat)
    (method : HttpRequestMethod) (url : Url)
    (query : Option (List (String × String))) (body : Option HttpRequestBody)
    (headers : Option (List (String × String))) (options : HttpRequestOptions)
    (redirection_counter : Nat) (w : Option WireRequest)
    (m : HttpRequestMethod) (u : Url) (b : Option HttpRequestBody)
    (hstep : sendStep env attempt method url query body headers options
      redirection_counter = (w, .redirect m u b)) :
    sendRequestInner env 0 attempt method url query body headers options
      redirection_counter = (w.toList, none) := by
  rw [sendRequestInner, hstep]

/-- Claim C3: with `allow_local = false` and a local host (local IPv4, local
IPv6, or the literal domain `localhost`), `send_request_inner` fails with
`LocalNotAllow` before any network I/O — the result holds for every transport
environment and the list of wire requests handed to the transport is empty —
and with no host at all it fails with the `Other` error kind. -/
theorem local_target_fails_before_transport (env : Env) (fuel attempt : Nat)
    (method : HttpRequestMethod) (url : Url)
    (query : Option (List (String × String))) (body : Option HttpRequestBody)
    (headers : Option (List (String × String))) (options : HttpRequestOptions)
    (redirection_counter : Nat) :
    (∀ h : Host, options.allow_local = false → url.host = some h →
      hostIsLocal h = true →
      sendRequestInner env fuel attempt method url query body headers options
        redirection_counter = ([], some (.error .LocalNotAllow))) ∧
    (url.host = none →
      sendRequestInner env fuel attempt method url query body headers options
        redirection_counter =
        ([], some (.error (.Other "A valid HTTP URL needs contains a host.")))) := by
  constructor
  · intro h hallow hhost hlocal
    have hcheck : checkHost url options = some .LocalNotAllow := by
      simp [checkHost, hhost, hallow, hlocal]
    have hstep : sendStep env attempt method url query body headers options
        redirection_counter = (none, .final (.error .LocalNotAllow)) := by
      simp [sendStep, hcheck]
    simpa using sendRequestInner_final env fuel attempt method url query body headers
      options redirection_counter none _ hstep
  · intro hhost
    have hcheck : checkHost url options =
        some (.Other "A valid HTTP URL needs contains a host.") := by
      simp [checkHost, hhost]
    have hstep : sendStep env attempt method url query body headers options
        redirection_counter =
        (none, .final (.error (.Other "A valid HTTP URL needs contains a host."))) := by
      simp [sendStep, hcheck]
    simpa using sendRequestInner_final env fuel attempt method url query body headers
      options redirection_counter none _ hstep

/-- An environment with no reachable transport and no parseable URL; claims
about behaviour *before* any network I/O are instantiated with it. -/
def nullEnv : Env := ⟨fun _ => none, fun _ => none⟩

/-- Witness for C3: `http://localhost/` with `allow_local = false` fails with
`LocalNotAllow` and zero transport attempts, and a hostless URL fails with the
`Other` error kind. -/
theorem local_target_fails_before_transport_witness :
    (⟨1048576, 5, 60000, false⟩ : HttpRequestOptions).allow_local = false ∧
    hostIsLocal (.Domain "localhost") = true ∧
    sendRequestInner nullEnv 5 0 .GET
      ⟨"http", "", some (.Domain "localhost"), none, "/", none⟩
      none none none ⟨1048576, 5, 60000, false⟩ 5 =
      ([], some (.error .LocalNotAllow)) ∧
    sendRequestInner nullEnv 5 0 .GET ⟨"data", "", none, none, "x", none⟩
      none none none ⟨1048576, 5, 60000, false⟩ 5 =
      ([], some (.error (.Other "A valid HTTP URL needs contains a host."))) := by
  refine ⟨rfl, rfl, ?_, ?_⟩
  · exact (local_target_fails_before_transport nullEnv 5 0 .GET
      ⟨"http", "", some (.Domain "localhost"), none, "/", none⟩
      none none none ⟨1048576, 5, 60000, false⟩ 5).1 (.Domain "localhost") rfl rfl rfl
  · exact (local_target_fails_before_transport nullEnv 5 0 .GET
      ⟨"data", "", none, none, "x", none⟩
      none none none ⟨1048576, 5, 60000, false⟩ 5).2 rfl

/-- Claim C9: `send` and `send_preserved` run the very same attempt logic on
the same method, URL, query, body, headers, options and initial redirect
budget, so their results coincide for every environment; `send_preserved`
borrows the specification (`&self` in the source), so in this pure embedding
non-mutation and the independence of repeated calls are immediate: both calls
denote the same value of the same function of the unchanged specification. -/
theorem send_eq_send_preserved (env : Env) (fuel : Nat) (r : HttpRequest) :
    r.send env fuel = r.send_preserved env fuel := rfl

/-- Claim C8, evaluated at the failing input `{"a":"1","b":"x y"}`: the
encoded wire body is the percent-encoded pairs joined with `&` (space encoded
as `+`), i.e. `a=1&b=x+y`, and `Content-Length` is its byte length 9 — but the
`Content-Type` header is set to the literal `"x-www-form-urlencoded"` (line
334 of `src/lib.rs`), not `"application/x-www-form-urlencoded"` as the claim
states. -/
theorem form_body_encoding_eval :
    applyBody (some (.FormURLEncoded [("a", "1"), ("b", "x y")]))
      (buildRequestHeaders none) =
      ([("User-Agent", DEFAULT_USER_AGENT),
        ("Content-Type", "x-www-form-urlencoded"),
        ("Content-Length", "9")],
       some (strBytes "a=1&b=x+y")) ∧
    formUrlEncodedSerialize [("a", "1"), ("b", "x y")] = "a=1&b=x+y" ∧
    (strBytes "a=1&b=x+y").length = 9 ∧
    "x-www-form-urlencoded" ≠ "application/x-www-form-urlencoded" := by
  refine ⟨?_, ?_, ?_, ?_⟩ <;> first | rfl | decide

/-- `http://example.com/`, a non-local target URL. -/
def exampleUrl : Url := ⟨"http", "", some (.Domain "example.com"), none, "/", none⟩

/-- A response that always redirects: status 302 with a resolvable
`Location`. -/
def redirectResponse : TransportResponse :=
  ⟨302, [("Location", "http://example.com/")], [], 0, fun _ => 0⟩

/-- An environment whose transport answers every attempt with the 302
response above and whose URL parser resolves its `Location`. -/
def always302Env : Env :=
  ⟨fun s => if s == "http://example.com/" then some exampleUrl else none,
   fun _ => some redirectResponse⟩

/-- Claim C1 is violated by the code: both recursive calls of
`send_request_inner` (lines 447-455 and 463-471 of `src/lib.rs`) pass
`redirection_counter` unchanged instead of decrementing it, so against a
server that always answers 302 with a resolvable `Location`, a request with
the default options (`max_redirect_count = 5`) has, for *every* fuel bound,
made `fuel + 1` transport attempts and is still redirecting: the chain of
attempts is not bounded by `max_redirect_count` and the recursion does not
terminate. -/
theorem redirect_budget_never_decremented :
    ∀ fuel attempt : Nat,
      (sendRequestInner always302Env fuel attempt .GET exampleUrl none none none
        HttpRequestOptions.default 5).2 = none ∧
      (sendRequestInner always302Env fuel attempt .GET exampleUrl none none none
        HttpRequestOptions.default 5).1.length = fuel + 1 := by
  intro fuel
  induction fuel with
  | zero =>
    intro attempt
    have h := sendRequestInner_redirect_zero always302Env attempt .GET exampleUrl
      none none none HttpRequestOptions.default 5
      (some ⟨.GET, exampleUrl, [("User-Agent", DEFAULT_USER_AGENT)], none⟩)
      .GET exampleUrl none rfl
    rw [h]
    exact ⟨rfl, rfl⟩
  | succ n ih =>
    intro attempt
    have h := sendRequestInner_redirect always302Env n attempt .GET exampleUrl
      none none none HttpRequestOptions.default 5
      (some ⟨.GET, exampleUrl, [("User-Agent", DEFAULT_USER_AGENT)], none⟩)
      .GET exampleUrl none rfl
    rw [h]
    refine ⟨(ih (attempt + 1)).1, ?_⟩
    simp only [List.length_append, Option.toList_some, List.length_cons,
      List.length_nil, (ih (attempt + 1)).2]
    omega

/-- Claim C4: with `max_redirect_count = 0` the redirect block is skipped
entirely — a 3xx response needs no `Location` header and is returned to the
caller as-is, as an `ok` `HttpResponse` carrying the 3xx status code, the
lower-cased header map and the body. -/
theorem redirects_disabled_returns_3xx (env : Env) (fuel : Nat) (r : HttpRequest)
    (resp : TransportResponse) (b : List Nat)
    (hmrc : r.options.max_redirect_count = 0)
    (hcheck : checkHost r.url r.options = none)
    (htrans : env.transport 0 = some resp)
    (htime : timedOut r.options.max_connection_time resp.headerElapsed = false)
    (hstatus : resp.status / 100 = 3)
    (hread : readBodyLoop r.options resp.chunkElapsed resp.bodyChunks 0 0 [] = .ok b) :
    r.send env fuel =
      ([⟨r.method, mergeQuery r.url r.query,
         (applyBody r.body (buildRequestHeaders r.headers)).1,
         (applyBody r.body (buildRequestHeaders r.headers)).2⟩],
       some (.ok ⟨resp.status, buildHeaderMap resp.headers, b⟩)) := by
  have hstep : sendStep env 0 r.method r.url r.query r.body r.headers r.options
      r.options.max_redirect_count =
      (some ⟨r.method, mergeQuery r.url r.query,
        (applyBody r.body (buildRequestHeaders r.headers)).1,
        (applyBody r.body (buildRequestHeaders r.headers)).2⟩,
       .final (.ok ⟨resp.status, buildHeaderMap resp.headers, b⟩)) := by
    simp [sendStep, hcheck, htrans, hmrc, htime, hread]
  have hfin := sendRequestInner_final env fuel 0 r.method r.url r.query r.body
    r.headers r.options r.options.max_redirect_count _ _ hstep
  simpa [HttpRequest.send] using hfin

/-- The target URL of the next redirect hop in the C2/C4 witnesses. -/
def nextUrl : Url := ⟨"http", "", some (.Domain "example.com"), none, "/next", none⟩

/-- A 303 response pointing at `nextUrl`. -/
def seeOtherResponse : TransportResponse :=
  ⟨303, [("Location", "http://example.com/next")], [], 0, fun _ => 0⟩

/-- Environment answering every attempt with the 303 response above. -/
def seeOtherEnv : Env :=
  ⟨fun s => if s == "http://example.com/next" then some nextUrl else none,
   fun _ => some seeOtherResponse⟩

/-- A 302 response with no `Location` header and a 2-byte body. -/
def c4Response : TransportResponse :=
  ⟨302, [("Server", "t")], [[104, 105]], 0, fun _ => 0⟩

/-- Environment answering every attempt with the 302 response above. -/
def c4Env : Env := ⟨fun _ => none, fun _ => some c4Response⟩

/-- A request with redirect-following disabled (`max_redirect_count = 0`). -/
def c4Request : HttpRequest :=
  ⟨.GET, exampleUrl, none, none, none, ⟨1048576, 0, 0, true⟩⟩

/-- Witness for C4: with `max_redirect_count = 0` against a server answering
302 without any `Location`, `send` returns the 302 response as-is. -/
theorem redirects_disabled_returns_3xx_witness :
    c4Request.options.max_redirect_count = 0 ∧
    c4Request.send c4Env 3 =
      ([⟨.GET, mergeQuery c4Request.url c4Request.query,
         (applyBody c4Request.body (buildRequestHeaders c4Request.headers)).1,
         (applyBody c4Request.body (buildRequestHeaders c4Request.headers)).2⟩],
       some (.ok ⟨302, buildHeaderMap c4Response.headers, [104, 105]⟩)) := by
  refine ⟨rfl, ?_⟩
  exact redirects_disabled_returns_3xx c4Env 3 c4Request c4Response [104, 105]
    rfl rfl rfl rfl rfl rfl

/-- Claim C2: for a redirect-eligible response (budget remaining, 3xx status,
resolvable `Location`), a 303 is followed with method `GET` and no body; 301,
302, 307 and 308 are followed with the original method and body; every other
3xx status fails with `RedirectError "Unsupported redirection status."`
instead of being followed. -/
theorem redirect_status_rules (env : Env) (fuel attempt : Nat)
    (method : HttpRequestMethod) (url : Url)
    (query : Option (List (String × String))) (body : Option HttpRequestBody)
    (headers : Option (List (String × String))) (options : HttpRequestOptions)
    (redirection_counter : Nat) (resp : TransportResponse) (locationUrl : Url)
    (hcheck : checkHost url options = none)
    (hcount : 0 < redirection_counter)
    (htrans : env.transport attempt = some resp)
    (htime : timedOut options.max_connection_time resp.headerElapsed = false)
    (hstatus : resp.status / 100 = 3)
    (hloc : resolveLocation env.parseUrl (mergeQuery url query)
      (buildHeaderMap resp.headers) = .ok locationUrl) :
    (resp.status = 303 →
      sendRequestInner env (fuel + 1) attempt method url query body headers options
        redirection_counter =
        (⟨method, mergeQuery url query,
           (applyBody body (buildRequestHeaders headers)).1,
           (applyBody body (buildRequestHeaders headers)).2⟩ ::
           (sendRequestInner env fuel (attempt + 1) .GET locationUrl query none headers
             options redirection_counter).1,
         (sendRequestInner env fuel (attempt + 1) .GET locationUrl query none headers
           options redirection_counter).2)) ∧
    (resp.status = 301 ∨ resp.status = 302 ∨ resp.status = 307 ∨ resp.status = 308 →
      sendRequestInner env (fuel + 1) attempt method url query body headers options
        redirection_counter =
        (⟨method, mergeQuery url query,
           (applyBody body (buildRequestHeaders headers)).1,
           (applyBody body (buildRequestHeaders headers)).2⟩ ::
           (sendRequestInner env fuel (attempt + 1) method locationUrl query body headers
             options redirection_counter).1,
         (sendRequestInner env fuel (attempt + 1) method locationUrl query body headers
           options redirection_counter).2)) ∧
    (resp.status ≠ 301 → resp.status ≠ 302 → resp.status ≠ 303 → resp.status ≠ 307 →
      resp.status ≠ 308 →
      sendRequestInner env (fuel + 1) attempt method url query body headers options
        redirection_counter =
        ([⟨method, mergeQuery url query,
           (applyBody body (buildRequestHeaders headers)).1,
           (applyBody body (buildRequestHeaders headers)).2⟩],
         some (.error (.RedirectError "Unsupported redirection status.")))) := by
  obtain ⟨k, rfl⟩ : ∃ k, redirection_counter = k + 1 :=
    ⟨redirection_counter - 1, by omega⟩
  refine ⟨?_, ?_, ?_⟩
  · intro h303
    have hstep : sendStep env attempt method url query body headers options (k + 1) =
        (some ⟨method, mergeQuery url query,
          (applyBody body (buildRequestHeaders headers)).1,
          (applyBody body (buildRequestHeaders headers)).2⟩,
         .redirect .GET locationUrl none) := by
      simp [sendStep, hcheck, htrans, htime, hloc, h303]
    have h := sendRequestInner_redirect env fuel attempt method url query body headers
      options (k + 1) _ .GET locationUrl none hstep
    simpa using h
  · intro hsame
    have hstep : sendStep env attempt method url query body headers options (k + 1) =
        (some ⟨method, mergeQuery url query,
          (applyBody body (buildRequestHeaders headers)).1,
          (applyBody body (buildRequestHeaders headers)).2⟩,
         .redirect method locationUrl body) := by
      rcases hsame with h | h | h | h <;>
        simp [sendStep, hcheck, htrans, htime, hloc, h]
    have h := sendRequestInner_redirect env fuel attempt method url query body headers
      options (k + 1) _ method locationUrl body hstep
    simpa using h
  · intro hne301 hne302 hne303 hne307 hne308
    have hstep : sendStep env attempt method url query body headers options (k + 1) =
        (some ⟨method, mergeQuery url query,
          (applyBody body (buildRequestHeaders headers)).1,
          (applyBody body (buildRequestHeaders headers)).2⟩,
         .final (.error (.RedirectError "Unsupported redirection status."))) := by
      simp [sendStep, hcheck, htrans, htime, hloc, hstatus,
        hne301, hne302, hne303, hne307, hne308]
    have h := sendRequestInner_final env (fuel + 1) attempt method url query body
      headers options (k + 1) _ _ hstep
    simpa using h

/-- Witness for C2: a POST with a text body receiving 303 with a resolvable
`Location` recurses as a `GET` with no body on the redirect target. -/
theorem redirect_status_rules_witness :
    sendRequestInner seeOtherEnv 1 0 .POST exampleUrl none
      (some (.Text "text/plain" "hi")) none ⟨1048576, 5, 0, true⟩ 5 =
      (⟨.POST, mergeQuery exampleUrl none,
         (applyBody (some (.Text "text/plain" "hi")) (buildRequestHeaders none)).1,
         (applyBody (some (.Text "text/plain" "hi")) (buildRequestHeaders none)).2⟩ ::
         (sendRequestInner seeOtherEnv 0 1 .GET nextUrl none none none
           ⟨1048576, 5, 0, true⟩ 5).1,
       (sendRequestInner seeOtherEnv 0 1 .GET nextUrl none none none
         ⟨1048576, 5, 0, true⟩ 5).2) := by
  exact (redirect_status_rules seeOtherEnv 0 0 .POST exampleUrl none
    (some (.Text "text/plain" "hi")) none ⟨1048576, 5, 0, true⟩ 5 seeOtherResponse
    nextUrl rfl (by decide) rfl rfl rfl rfl).1 rfl
